import Mathlib

/-!
Shallow embedding of the Inbucket SMTP session handler
(src/pkg/server/smtp/handler.go).

Conventions of the embedding:
Wire text is modelled as List Char; Go indexes strings by byte, which
coincides with character indexing on ASCII input (SMTP commands are
ASCII).  Message bodies in the DATA phase are raw bytes, modelled as
List Nat (one Nat per byte).  Go maps, slices and early returns become
association lists, List append and nested matches.  External
collaborators that are not part of src (the policy package and the
delivery manager) are oracles carried in an Env record.  The functions
strings.ToUpper and the regular expressions are modelled on ASCII,
which is exact for every ASCII input.
-/

/-- Character list of a string literal, used to write wire text. -/
def chars (s : String) : List Char := s.data

/-- ASCII uppercase of one character, modelling strings.ToUpper on ASCII input. -/
def asciiUpper (c : Char) : Char :=
  if 'a' ≤ c ∧ c ≤ 'z' then Char.ofNat (c.toNat - 32) else c

/-- The character class matched by the RE2 escape for whitespace: tab,
newline, formfeed, carriage return and space. -/
def isGoSpace (c : Char) : Bool :=
  if c = ' ' ∨ c = '\t' ∨ c = '\n' ∨ c = '\x0c' ∨ c = '\r' then true else false

/-- The RE2 word-character class: ASCII digits, letters and underscore. -/
def isWordChar (c : Char) : Bool :=
  if ('0' ≤ c ∧ c ≤ '9') ∨ ('A' ≤ c ∧ c ≤ 'Z') ∨ ('a' ≤ c ∧ c ≤ 'z') ∨ c = '_'
  then true else false

/-- Go strings.TrimRight with cutset of carriage return and newline. -/
def trimRightCRLF (l : List Char) : List Char :=
  (l.reverse.dropWhile (fun c => c = '\r' ∨ c = '\n')).reverse

/-- Go strings.Trim: remove every leading and trailing character that is
a member of the cutset. -/
def goTrim (l : List Char) (cutset : List Char) : List Char :=
  ((l.dropWhile (fun c => cutset.contains c)).reverse.dropWhile
    (fun c => cutset.contains c)).reverse

/-- Embedding of Session.parseCmd: split a wire line into verb, argument
and an ok flag, after stripping trailing CR and LF characters. -/
def parseCmd (line : List Char) : List Char × List Char × Bool :=
  let l := trimRightCRLF line
  if l.length = 0 then ([], [], true)
  else if l.length < 4 then ([], [], false)
  else if l.length = 4 then (l.map asciiUpper, [], true)
  else if l.length = 5 then ([], [], false)
  else if l.getD 4 ' ' ≠ ' ' then ([], [], false)
  else ((l.take 4).map asciiUpper, goTrim (l.drop 5) [' '], true)

/-- Embedding of parseHelloArgument: the HELO or EHLO domain is
everything up to the first space and must be non-empty. -/
def parseHelloArgument (arg : List Char) : Option (List Char) :=
  let domain := arg.takeWhile (fun c => c ≠ ' ')
  if domain = [] then none else some domain

/-- Match of the optional trailing group of the MAIL FROM regular
expression, a space followed by one or more word characters, equal
signs or spaces, anchored at the end; returns the text of the group
(empty when the group is absent). -/
def tailMatch (r : List Char) : Option (List Char) :=
  match r with
  | [] => some []
  | ' ' :: rest =>
    if rest ≠ [] ∧ rest.all (fun c => isWordChar c || c == '=' || c == ' ')
    then some (' ' :: rest) else none
  | _ => none

/-- Backtracking match of the first alternative of the address group of
the MAIL FROM regular expression: one or more tokens, each either a
backslash followed by a greater-than sign or any single character other
than greater-than; then the closing greater-than sign and the trailing
group.  The accumulator holds the address read so far, reversed.
Choices are tried in the order a leftmost-first engine would try them:
longer iteration first, the two-character token before the
one-character token. -/
def alt1Go (acc : List Char) : List Char → Option (List Char × List Char)
  | [] => none
  | '>' :: r =>
    if acc = [] then none
    else (tailMatch r).map (fun t => (acc.reverse, t))
  | '\\' :: '>' :: r2 =>
    (alt1Go ('>' :: '\\' :: acc) r2)
      <|> ((tailMatch r2).map (fun t => (('\\' :: acc).reverse, t)))
  | c :: r => alt1Go (c :: acc) r

/-- Match of the second alternative of the address group of the MAIL
FROM regular expression: a double-quoted local part, an at sign, then
one or more characters other than greater-than, the closing
greater-than sign and the trailing group. -/
def alt2Match (r : List Char) : Option (List Char × List Char) :=
  match r with
  | '"' :: r1 =>
    let loc := r1.takeWhile (fun c => c != '"')
    let r1r := r1.dropWhile (fun c => c != '"')
    if loc = [] then none
    else
      match r1r with
      | '"' :: '@' :: r2 =>
        let dom := r2.takeWhile (fun c => c != '>')
        let r2r := r2.dropWhile (fun c => c != '>')
        if dom = [] then none
        else
          match r2r with
          | '>' :: r3 =>
            (tailMatch r3).map (fun t => ('"' :: loc ++ '"' :: '@' :: dom, t))
          | _ => none
      | _ => none
  | _ => none

/-- Embedding of the MAIL FROM regular expression used by readyHandler:
case-insensitive FROM colon, optional whitespace, an angle-bracketed
address, and an optional parameter group.  Returns the address group
and the parameter group (the two submatches) on success. -/
def matchMailFrom (arg : List Char) : Option (List Char × List Char) :=
  if (arg.take 5).map asciiUpper = chars ("FROM:") then
    match (arg.drop 5).dropWhile (fun c => isGoSpace c) with
    | '<' :: r => (alt1Go [] r) <|> (alt2Match r)
    | _ => none
  else none

/-- One scan step of the ESMTP parameter regular expression, space then
word characters, an equal sign, then word characters, applied
repeatedly to find all non-overlapping leftmost matches.  The fuel is
an upper bound on the number of scan steps; the caller passes the
length of the input, which always suffices because every step consumes
at least one character. -/
def findArgsF : Nat → List Char → List (List Char × List Char)
  | 0, _ => []
  | _, [] => []
  | fuel+1, ' ' :: r =>
    let k := r.takeWhile isWordChar
    if k = [] then findArgsF fuel r
    else
      match r.drop k.length with
      | '=' :: r2 =>
        let v := r2.takeWhile isWordChar
        if v = [] then findArgsF fuel r
        else (k, v) :: findArgsF fuel (r2.drop v.length)
      | _ => findArgsF fuel r
  | fuel+1, _ :: r => findArgsF fuel r

/-- Embedding of Session.parseArgs: find all KEY=VALUE parameter tokens,
fail when there is none, and store them with uppercased keys; a later
binding of the same key overwrites an earlier one. -/
def parseArgs (params : List Char) : Option (List (List Char × List Char)) :=
  let pm := findArgsF params.length params
  if pm = [] then none
  else some (pm.map (fun p => (p.1.map asciiUpper, p.2)))

/-- Lookup in the parameter map built by parseArgs, with the Go map
default of the empty string for an absent key; a later binding wins. -/
def mapGet (args : List (List Char × List Char)) (k : List Char) : List Char :=
  args.foldl (fun acc p => if p.1 = k then p.2 else acc) []

/-- Embedding of strconv.ParseInt with base 10 and bit size 32: an
optional sign, one or more decimal digits, and the value must fit in a
signed 32-bit integer; any other input is an error. -/
def parseInt32 (s : List Char) : Option Int :=
  match s with
  | [] => none
  | c :: r =>
    let ds : List Char := if c = '-' ∨ c = '+' then r else c :: r
    if ds = [] then none
    else if ds.all (fun d => '0' ≤ d ∧ d ≤ '9') then
      let n : Nat := ds.foldl (fun a d => a * 10 + (d.toNat - 48)) 0
      if c = '-' then
        if (n : Int) ≤ 2^31 then some (-(n : Int)) else none
      else
        if (n : Int) ≤ 2^31 - 1 then some (n : Int) else none
    else none

/-- The SMTP state machine states, as in the State constants of handler.go. -/
inductive SmtpState where
  | GREET
  | READY
  | MAIL
  | DATA
  | QUIT
deriving DecidableEq

/-- Modelled from the spec: the policy package is not under src; a
recipient record carries the raw address, its local part and whether
the policy stores it (the three members the session reads:
Address.Address, LocalPart and ShouldStore). -/
structure Recipient where
  address : List Char
  localPart : List Char
  shouldStore : Bool
deriving DecidableEq

/-- Embedding of the Session fields the handlers touch.  The Go field
named from is called fromAddr here because from is a Lean keyword. -/
structure Session where
  state : SmtpState
  remoteDomain : List Char
  remoteHost : List Char
  fromAddr : List Char
  recipients : List Recipient
deriving DecidableEq

/-- Modelled from the spec: server configuration together with oracles
for the external collaborators that are not under src.  parseEmailOk
answers whether policy.ParseEmailAddress returns no error, newRecipient
models policy.NewRecipient, and deliverErr answers whether
manager.Deliver returns an error for a recipient. -/
structure Env where
  maxMessageBytes : Nat
  maxRecips : Nat
  parseEmailOk : List Char → Bool
  newRecipient : List Char → Option Recipient
  deliverErr : Recipient → Bool

/-- Embedding of NewSession: initial state GREET, remote host from the
socket, everything else empty. -/
def initSession (host : List Char) : Session :=
  { state := .GREET, remoteDomain := [], remoteHost := host,
    fromAddr := [], recipients := [] }

/-- Embedding of Session.reset: enter READY and clear the sender and
the recipients. -/
def reset (ss : Session) : Session :=
  { ss with state := .READY, fromAddr := [], recipients := [] }

/-- Reply of Session.ooSeq for an out-of-sequence command. -/
def ooSeq (ss : Session) (cmd : List Char) : Session × List String :=
  (ss, ["503 Command " ++ String.mk cmd ++ " is out of sequence"])

/-- Embedding of Session.greetHandler: HELO and EHLO set the remote
domain and enter READY, everything else is out of sequence. -/
def greetHandler (env : Env) (ss : Session) (cmd arg : List Char) :
    Session × List String :=
  if cmd = chars ("HELO") then
    match parseHelloArgument arg with
    | none => (ss, ["501 Domain/address argument required for HELO"])
    | some d =>
      ({ ss with remoteDomain := d, state := .READY },
        ["250 Great, let\x27s get this show on the road"])
  else if cmd = chars ("EHLO") then
    match parseHelloArgument arg with
    | none => (ss, ["501 Domain/address argument required for EHLO"])
    | some d =>
      ({ ss with remoteDomain := d, state := .READY },
        ["250-Great, let\x27s get this show on the road",
         "250-8BITMIME",
         "250 SIZE " ++ toString env.maxMessageBytes])
  else ooSeq ss cmd

/-- The session result and replies when a MAIL FROM command is accepted:
record the sender and enter the MAIL state. -/
def acceptMail (ss : Session) (f : List Char) : Session × List String :=
  ({ ss with fromAddr := f, state := .MAIL },
    ["250 Roger, accepting mail from <" ++ String.mk f ++ ">"])

/-- Embedding of Session.readyHandler: a MAIL command is matched against
the FROM regular expression, the address is validated by the policy,
an optional SIZE parameter is parsed as a signed 32-bit integer and
checked against maxMessageBytes, then the session enters MAIL; every
other command is out of sequence. -/
def readyHandler (env : Env) (ss : Session) (cmd arg : List Char) :
    Session × List String :=
  if cmd = chars ("MAIL") then
    match matchMailFrom arg with
    | none => (ss, ["501 Was expecting MAIL arg syntax of FROM:<address>"])
    | some (f, params) =>
      if env.parseEmailOk f = false then
        (ss, ["501 Bad sender address syntax"])
      else if params ≠ [] then
        match parseArgs params with
        | none => (ss, ["501 Unable to parse MAIL ESMTP parameters"])
        | some args =>
          if mapGet args (chars ("SIZE")) ≠ [] then
            match parseInt32 (mapGet args (chars ("SIZE"))) with
            | none => (ss, ["501 Unable to parse SIZE as an integer"])
            | some v =>
              if (env.maxMessageBytes : Int) < v then
                (ss, ["552 Max message size exceeded"])
              else acceptMail ss f
          else acceptMail ss f
      else acceptMail ss f
  else ooSeq ss cmd

/-- Embedding of Session.mailHandler: RCPT validates its argument,
consults the policy, enforces maxRecips and appends the recipient;
DATA refuses arguments, requires at least one recipient and enters the
DATA state; everything else is out of sequence. -/
def mailHandler (env : Env) (ss : Session) (cmd arg : List Char) :
    Session × List String :=
  if cmd = chars ("RCPT") then
    if arg.length < 4 ∨ (arg.take 3).map asciiUpper ≠ chars ("TO:") then
      (ss, ["501 Was expecting RCPT arg syntax of TO:<address>"])
    else
      match env.newRecipient (goTrim (arg.drop 3) (chars ("<> "))) with
      | none => (ss, ["501 Bad recipient address syntax"])
      | some recip =>
        if env.maxRecips ≤ ss.recipients.length then
          (ss, ["552 Maximum limit of " ++ toString env.maxRecips ++
            " recipients reached"])
        else
          ({ ss with recipients := ss.recipients ++ [recip] },
            ["250 I\x27ll make sure <" ++
              String.mk (goTrim (arg.drop 3) (chars ("<> "))) ++
              "> gets this"])
  else if cmd = chars ("DATA") then
    if arg ≠ [] then
      (ss, ["501 DATA command should not have any arguments"])
    else if 0 < ss.recipients.length then
      ({ ss with state := .DATA }, [])
    else ooSeq ss cmd
  else ooSeq ss cmd

/-- The terminator line of the data phase with CRLF ending, as bytes. -/
def dotCRLF : List Nat := [46, 13, 10]

/-- The terminator line of the data phase with bare LF ending, as bytes. -/
def dotLF : List Nat := [46, 10]

/-- Leading-period removal of the data loop: a non-empty line whose
first byte is a dot loses exactly that byte. -/
def unstuffLine (l : List Nat) : List Nat :=
  match l with
  | b :: bs => if b = 46 then bs else l
  | [] => l

/-- Modelled from the spec: client-side dot-stuffing doubles the leading
dot of a line whose first character is a dot. -/
def stuffLine (l : List Nat) : List Nat :=
  if l.head? = some 46 then 46 :: l else l

/-- Outcome of the byte-line reading loop of Session.dataHandler. -/
inductive DataResult where
  | quit : DataResult
  | exceeded : DataResult
  | done : List Nat → List (List Nat) → DataResult
deriving DecidableEq

/-- Embedding of the reading loop of Session.dataHandler: read byte
lines until the terminator, unstuff each line, append it to the buffer
and fail once the buffer exceeds the maximum; exhausted input models a
read error, which ends the session. -/
def dataLoop (maxBytes : Nat) (buf : List Nat) :
    List (List Nat) → DataResult
  | [] => .quit
  | l :: ls =>
    if l = dotCRLF ∨ l = dotLF then .done buf ls
    else
      let buf2 := buf ++ unstuffLine l
      if maxBytes < buf2.length then .exceeded
      else dataLoop maxBytes buf2 ls

/-- Embedding of the delivery loop of Session.dataHandler: walk the
recipients in order, call Deliver for those the policy stores, stop at
the first delivery error, and count one received-total increment per
recipient that completes its loop iteration.  Returns the recipients
Deliver was called for, the number of counter increments, and the
failing recipient when there is one. -/
def deliverLoop (dErr : Recipient → Bool) :
    List Recipient → List Recipient × Nat × Option Recipient
  | [] => ([], 0, none)
  | r :: rs =>
    if r.shouldStore then
      if dErr r then ([r], 0, some r)
      else
        let rest := deliverLoop dErr rs
        (r :: rest.1, rest.2.1 + 1, rest.2.2)
    else
      let rest := deliverLoop dErr rs
      (rest.1, rest.2.1 + 1, rest.2.2)

/-- Result of one run of Session.dataHandler: the session it leaves
behind, the replies it sent, the recipients Deliver was called for and
the number of received-total counter increments. -/
structure DataOut where
  session : Session
  replies : List String
  delivers : List Recipient
  counterInc : Nat
deriving DecidableEq

/-- The 354 reply that opens the data phase. -/
def msg354 : String := "354 Start mail input; end with <CRLF>.<CRLF>"

/-- Embedding of Session.dataHandler: send 354, run the reading loop,
and on the terminator run the delivery loop; a size overflow replies
552 and resets, a delivery error replies 451 and resets, success
replies 250 and resets, and a read error ends the session. -/
def dataHandler (env : Env) (ss : Session) (lines : List (List Nat)) :
    DataOut :=
  match dataLoop env.maxMessageBytes [] lines with
  | .quit => ⟨{ ss with state := .QUIT }, [msg354], [], 0⟩
  | .exceeded =>
    ⟨reset ss, [msg354, "552 Maximum message size exceeded"], [], 0⟩
  | .done _ _ =>
    let d := deliverLoop env.deliverErr ss.recipients
    match d.2.2 with
    | some r =>
      ⟨reset ss,
        [msg354, "451 Failed to store message for " ++ String.mk r.localPart],
        d.1, d.2.1⟩
    | none =>
      ⟨reset ss, [msg354, "250 Mail accepted for delivery"], d.1, d.2.1⟩

/-- The recognised-verb set of the commands map in handler.go. -/
def commandsList : List (List Char) :=
  [chars ("HELO"), chars ("EHLO"), chars ("MAIL"), chars ("RCPT"),
   chars ("DATA"), chars ("RSET"), chars ("SEND"), chars ("SOML"),
   chars ("SAML"), chars ("VRFY"), chars ("EXPN"), chars ("HELP"),
   chars ("NOOP"), chars ("QUIT"), chars ("TURN")]

/-- The verbs answered with 502 in every state. -/
def notImplList : List (List Char) :=
  [chars ("SEND"), chars ("SOML"), chars ("SAML"), chars ("EXPN"),
   chars ("HELP"), chars ("TURN")]

/-- Dispatch of one parsed command, following the command reading loop
of startSession: empty verb, unrecognised verb, the verbs handled in
any state, then the handler of the current state.  The DATA and QUIT
cases are unreachable inside the loop, which exits instead. -/
def handleParsed (env : Env) (ss : Session) (cmd arg : List Char) :
    Session × List String :=
  if cmd = [] then (ss, ["500 Speak up"])
  else if commandsList.contains cmd = false then
    (ss, ["500 Syntax error, " ++ String.mk cmd ++ " command unrecognized"])
  else if notImplList.contains cmd then
    (ss, ["502 " ++ String.mk cmd ++ " command not implemented"])
  else if cmd = chars ("VRFY") then
    (ss, ["252 Cannot VRFY user, but will accept message"])
  else if cmd = chars ("NOOP") then
    (ss, ["250 I have sucessfully done nothing"])
  else if cmd = chars ("RSET") then
    (reset ss, ["250 Session reset"])
  else if cmd = chars ("QUIT") then
    ({ ss with state := .QUIT }, ["221 Goodnight and good luck"])
  else
    match ss.state with
    | .GREET => greetHandler env ss cmd arg
    | .READY => readyHandler env ss cmd arg
    | .MAIL => mailHandler env ss cmd arg
    | .DATA => (ss, [])
    | .QUIT => (ss, [])

/-- One command-phase iteration of the session loop: parse the line and
dispatch it, or reply that the command is garbled. -/
def handleCmd (env : Env) (ss : Session) (line : List Char) :
    Session × List String :=
  match parseCmd line with
  | (cmd, arg, ok) =>
    if ok then handleParsed env ss cmd arg
    else (ss, ["500 Syntax error, command garbled"])

/-- The sessions reachable by the command reading loop of startSession:
the fresh session, one more command line while not in DATA or QUIT, or
one whole data phase while in DATA. -/
inductive Reach (env : Env) : Session → Prop where
  | init (host : List Char) : Reach env (initSession host)
  | cmd (ss : Session) (line : List Char) : Reach env ss →
      ss.state ≠ .DATA → ss.state ≠ .QUIT →
      Reach env (handleCmd env ss line).1
  | data (ss : Session) (lines : List (List Nat)) : Reach env ss →
      ss.state = .DATA → Reach env (dataHandler env ss lines).session

/-- An environment with concrete configuration and permissive oracles,
used to evaluate the handlers on concrete wire input. -/
def demoEnv : Env :=
  { maxMessageBytes := 1000, maxRecips := 2,
    parseEmailOk := fun _ => true,
    newRecipient := fun a => some ⟨a, a.takeWhile (fun c => c ≠ '@'), true⟩,
    deliverErr := fun _ => false }

/-- Session after the greeting, on a fresh connection. -/
def demoS0 : Session := initSession (chars ("127.0.0.1"))

/-- Session after HELO. -/
def demoS1 : Session :=
  (handleCmd demoEnv demoS0 (chars ("HELO client.example"))).1

/-- Session after MAIL FROM. -/
def demoS2 : Session :=
  (handleCmd demoEnv demoS1 (chars ("MAIL FROM:<a@ex>"))).1

/-- Session after RCPT TO. -/
def demoS3 : Session :=
  (handleCmd demoEnv demoS2 (chars ("RCPT TO:<b@ex>"))).1

/-- Session after the DATA command, at entry into the data phase. -/
def demoS4 : Session :=
  (handleCmd demoEnv demoS3 (chars ("DATA"))).1

/-- An environment whose delivery oracle always fails, for the 451 path. -/
def failEnv : Env :=
  { demoEnv with deliverErr := fun _ => true }

/-- A recipient the policy accepts but does not store. -/
def unstoredRecip : Recipient := ⟨chars ("b@ex"), chars ("b"), false⟩

/-- A session in the DATA state whose only recipient is not stored,
used to evaluate the received-total counter. -/
def unstoredSession : Session :=
  { state := .DATA, remoteDomain := chars ("client.example"),
    remoteHost := chars ("127.0.0.1"), fromAddr := chars ("a@ex"),
    recipients := [unstoredRecip] }

/-- The session invariant behind the DATA-entry claim: in MAIL the
sender is recorded, and in DATA both the sender and at least one
recipient are recorded. -/
def InvP (ss : Session) : Prop :=
  (ss.state = .MAIL → ss.fromAddr ≠ []) ∧
  (ss.state = .DATA → ss.fromAddr ≠ [] ∧ ss.recipients ≠ [])

/-- An environment with a tiny message size limit, to exercise the size
boundary on short concrete bodies. -/
def tinyEnv : Env := { demoEnv with maxMessageBytes := 4 }

/-- Every address produced by the first alternative of the MAIL FROM
matcher is non-empty: the closing step refuses an empty accumulator and
every other producing step reverses a cons. -/
theorem alt1Go_some_ne (acc r : List Char) (b t : List Char)
    (h : alt1Go acc r = some (b, t)) : b ≠ [] := by
  induction acc, r using alt1Go.induct with
  | case1 acc => simp [alt1Go] at h
  | case2 r =>
    rw [alt1Go] at h
    simp at h
  | case3 acc r hne =>
    rw [alt1Go, if_neg hne] at h
    rcases Option.map_eq_some'.mp h with ⟨w, _, hw⟩
    injection hw with hb ht
    rw [← hb]
    simpa using hne
  | case4 acc r2 ih =>
    rw [alt1Go] at h
    rcases h1 : alt1Go ('>' :: '\\' :: acc) r2 with _ | p
    · rw [h1] at h
      simp only [Option.none_orElse] at h
      rcases Option.map_eq_some'.mp h with ⟨w, _, hw⟩
      injection hw with hb ht
      rw [← hb]
      simp
    · rw [h1] at h
      simp only [Option.some_orElse] at h
      obtain rfl : p = (b, t) := by injection h
      exact ih h1
  | case5 acc c r hne1 hne2 ih =>
    rw [alt1Go.eq_4 acc c r hne1 hne2] at h
    exact ih h

/-- Every address produced by the second alternative of the MAIL FROM
matcher is non-empty: it starts with the opening double quote. -/
theorem alt2Match_some_ne (r b t : List Char)
    (h : alt2Match r = some (b, t)) : b ≠ [] := by
  unfold alt2Match at h
  split at h <;> try simp_all
  split at h <;> try simp_all
  split at h <;> try simp_all
  obtain ⟨-, -, -, hb⟩ := h
  rw [← hb]
  simp

/-- The address submatch of a successful MAIL FROM match is never the
empty string, because both alternatives of the address group require at
least one character. -/
theorem matchMailFrom_some_ne (arg f params : List Char)
    (h : matchMailFrom arg = some (f, params)) : f ≠ [] := by
  unfold matchMailFrom at h
  split at h
  · split at h
    · next r _ =>
      rcases h1 : alt1Go [] r with _ | p
      · rw [h1] at h
        simp only [Option.none_orElse] at h
        exact alt2Match_some_ne r f params h
      · rw [h1] at h
        simp only [Option.some_orElse] at h
        obtain rfl : p = (f, params) := by injection h
        exact alt1Go_some_ne [] r f params h1
    · simp at h
  · simp at h

/-- C7: reset moves every session to READY, clears the envelope sender
and empties the recipients, and leaves the other session fields, in
particular the remote domain, unchanged. -/
theorem c7_reset_frame (ss : Session) :
    (reset ss).state = .READY ∧ (reset ss).fromAddr = [] ∧
    (reset ss).recipients = [] ∧
    (reset ss).remoteDomain = ss.remoteDomain ∧
    (reset ss).remoteHost = ss.remoteHost :=
  ⟨rfl, rfl, rfl, rfl, rfl⟩

/-- C2: on a line with no trailing carriage return or newline, the
command parser returns ok on the empty line, rejects lengths one to
three and exactly five, uppercases a four-character line as a bare
verb, and for length at least six demands a space at index four,
returning the uppercased first four characters and the space-trimmed
remainder after index five. -/
theorem c2_parseCmd_cases (line : List Char)
    (h : trimRightCRLF line = line) :
    (line.length = 0 → parseCmd line = ([], [], true)) ∧
    (1 ≤ line.length → line.length ≤ 3 → parseCmd line = ([], [], false)) ∧
    (line.length = 4 → parseCmd line = (line.map asciiUpper, [], true)) ∧
    (line.length = 5 → parseCmd line = ([], [], false)) ∧
    (6 ≤ line.length →
      (line.getD 4 ' ' ≠ ' ' → parseCmd line = ([], [], false)) ∧
      (line.getD 4 ' ' = ' ' →
        parseCmd line =
          ((line.take 4).map asciiUpper, goTrim (line.drop 5) [' '], true))) := by
  refine ⟨?_, ?_, ?_, ?_, ?_⟩
  · intro h0
    simp [parseCmd, h, h0]
  · intro h1 h3
    have e0 : ¬ line.length = 0 := by omega
    have e1 : line.length < 4 := by omega
    simp [parseCmd, h, e0, e1]
  · intro h4
    simp [parseCmd, h, h4]
  · intro h5
    have e0 : ¬ line.length = 0 := by omega
    have e1 : ¬ line.length < 4 := by omega
    have e2 : ¬ line.length = 4 := by omega
    simp [parseCmd, h, e0, e1, e2, h5]
  · intro h6
    have e0 : ¬ line.length = 0 := by omega
    have e1 : ¬ line.length < 4 := by omega
    have e2 : ¬ line.length = 4 := by omega
    have e3 : ¬ line.length = 5 := by omega
    constructor
    · intro hs
      rw [List.getD_eq_getElem?_getD] at hs
      simp [parseCmd, h, e0, e1, e2, e3, hs]
    · intro hs
      rw [List.getD_eq_getElem?_getD] at hs
      simp [parseCmd, h, e0, e1, e2, e3, hs]

/-- Witness for C2 at a concrete wire line of length at least six. -/
theorem c2_parseCmd_cases_witness :
    parseCmd (chars ("MAIL FROM:<a@ex>")) =
      (chars ("MAIL"), chars ("FROM:<a@ex>"), true) := by
  have h := ((c2_parseCmd_cases (chars ("MAIL FROM:<a@ex>"))
    (by decide)).2.2.2.2 (by decide)).2 (by decide)
  exact h.trans (by decide)

/-- C10: in the MAIL state with at least one accepted recipient, a DATA
command with a non-empty argument replies 501 and changes nothing. -/
theorem c10_data_with_arg (env : Env) (ss : Session) (arg : List Char)
    (hstate : ss.state = .MAIL) (hrec : ss.recipients ≠ [])
    (harg : arg ≠ []) :
    mailHandler env ss (chars ("DATA")) arg =
      (ss, ["501 DATA command should not have any arguments"]) ∧
    (mailHandler env ss (chars ("DATA")) arg).1.state = .MAIL ∧
    (mailHandler env ss (chars ("DATA")) arg).1.fromAddr = ss.fromAddr ∧
    (mailHandler env ss (chars ("DATA")) arg).1.recipients = ss.recipients := by
  have hm : mailHandler env ss (chars ("DATA")) arg =
      (ss, ["501 DATA command should not have any arguments"]) := by
    unfold mailHandler
    rw [if_neg (by decide), if_pos rfl, if_pos harg]
  exact ⟨hm, by rw [hm]; exact hstate, by rw [hm], by rw [hm]⟩

/-- Witness for C10: a DATA command with argument in a concrete MAIL
session leaves the session untouched. -/
theorem c10_data_with_arg_witness :
    mailHandler demoEnv demoS3 (chars ("DATA")) (chars ("x")) =
      (demoS3, ["501 DATA command should not have any arguments"]) :=
  (c10_data_with_arg demoEnv demoS3 (chars ("x"))
    (by decide) (by decide) (by decide)).1

/-- C6: a syntactically valid RCPT while one slot is left (the
maxRecips-th) is accepted with 250 and appended, and a syntactically
valid RCPT when the list already holds maxRecips recipients is rejected
with 552, leaving the recipients and the MAIL state unchanged. -/
theorem c6_rcpt_limit (env : Env) (ss : Session) (arg : List Char)
    (recip : Recipient) (hstate : ss.state = .MAIL)
    (hsyn : ¬(arg.length < 4 ∨ (arg.take 3).map asciiUpper ≠ chars ("TO:")))
    (hnew : env.newRecipient (goTrim (arg.drop 3) (chars ("<> "))) = some recip) :
    (ss.recipients.length + 1 = env.maxRecips →
      mailHandler env ss (chars ("RCPT")) arg =
        ({ ss with recipients := ss.recipients ++ [recip] },
         ["250 I\x27ll make sure <" ++
           String.mk (goTrim (arg.drop 3) (chars ("<> "))) ++ "> gets this"])) ∧
    (ss.recipients.length = env.maxRecips →
      mailHandler env ss (chars ("RCPT")) arg =
        (ss, ["552 Maximum limit of " ++ toString env.maxRecips ++
          " recipients reached"]) ∧
      (mailHandler env ss (chars ("RCPT")) arg).1.state = .MAIL ∧
      (mailHandler env ss (chars ("RCPT")) arg).1.recipients = ss.recipients) := by
  constructor
  · intro hcount
    unfold mailHandler
    rw [if_pos rfl, if_neg hsyn, hnew]
    dsimp only
    rw [if_neg (by omega)]
  · intro hcount
    have hm : mailHandler env ss (chars ("RCPT")) arg =
        (ss, ["552 Maximum limit of " ++ toString env.maxRecips ++
          " recipients reached"]) := by
      unfold mailHandler
      rw [if_pos rfl, if_neg hsyn, hnew]
      dsimp only
      rw [if_pos (by omega)]
    exact ⟨hm, by rw [hm]; exact hstate, by rw [hm]⟩

/-- Witness for C6: in a concrete session holding one of two allowed
recipients, the second RCPT is accepted; the theorem is applied at a
state already holding two, where the third RCPT is rejected with 552. -/
theorem c6_rcpt_limit_witness :
    (mailHandler demoEnv demoS3 (chars ("RCPT")) (chars ("TO:<c@ex>"))).2 =
      ["250 I\x27ll make sure <c@ex> gets this"] ∧
    (mailHandler demoEnv
      (mailHandler demoEnv demoS3 (chars ("RCPT")) (chars ("TO:<c@ex>"))).1
      (chars ("RCPT")) (chars ("TO:<d@ex>"))).2 =
      ["552 Maximum limit of 2 recipients reached"] := by
  constructor
  · have h := (c6_rcpt_limit demoEnv demoS3 (chars ("TO:<c@ex>"))
      ⟨chars ("c@ex"), chars ("c"), true⟩ (by decide) (by decide)
      (by decide)).1 (by decide)
    rw [h]
    decide
  · have h := ((c6_rcpt_limit demoEnv
      (mailHandler demoEnv demoS3 (chars ("RCPT")) (chars ("TO:<c@ex>"))).1
      (chars ("TO:<d@ex>")) ⟨chars ("d@ex"), chars ("d"), true⟩
      (by decide) (by decide) (by decide)).2 (by decide)).1
    rw [h]
    decide

/-- Every value parseInt32 accepts lies in the signed 32-bit range. -/
theorem parseInt32_range (s : List Char) (w : Int)
    (h : parseInt32 s = some w) : -(2^31) ≤ w ∧ w ≤ 2^31 - 1 := by
  unfold parseInt32 at h
  repeat' (first | split at h | dsimp only at h)
  all_goals
    first
      | (obtain rfl := Option.some.inj h; constructor <;> omega)
      | simp at h

/-- C5: a SIZE parameter is parsed as a signed 32-bit integer; with the
MAIL FROM argument matched, the sender accepted by the policy and SIZE
successfully parsed to v, a v above maxMessageBytes replies 552 and
leaves the session out of the MAIL state unchanged, while v equal to
maxMessageBytes is accepted. -/
theorem c5_size_limit (env : Env) (ss : Session) (arg f params : List Char)
    (args : List (List Char × List Char)) (v : Int)
    (hm : matchMailFrom arg = some (f, params))
    (hp : env.parseEmailOk f = true)
    (hne : params ≠ [])
    (ha : parseArgs params = some args)
    (hs : mapGet args (chars ("SIZE")) ≠ [])
    (hv : parseInt32 (mapGet args (chars ("SIZE"))) = some v) :
    (∀ s w, parseInt32 s = some w → -(2^31) ≤ w ∧ w ≤ 2^31 - 1) ∧
    ((env.maxMessageBytes : Int) < v →
      readyHandler env ss (chars ("MAIL")) arg =
        (ss, ["552 Max message size exceeded"])) ∧
    (v = (env.maxMessageBytes : Int) →
      readyHandler env ss (chars ("MAIL")) arg = acceptMail ss f ∧
      (readyHandler env ss (chars ("MAIL")) arg).1.state = .MAIL ∧
      (readyHandler env ss (chars ("MAIL")) arg).1.fromAddr = f) := by
  refine ⟨parseInt32_range, ?_, ?_⟩
  · intro hgt
    unfold readyHandler
    rw [if_pos rfl, hm]
    dsimp only
    rw [hp]
    rw [if_neg (by simp), if_pos hne, ha]
    dsimp only
    rw [if_pos hs, hv]
    dsimp only
    rw [if_pos hgt]
  · intro heq
    have hred : readyHandler env ss (chars ("MAIL")) arg = acceptMail ss f := by
      unfold readyHandler
      rw [if_pos rfl, hm]
      dsimp only
      rw [hp]
      rw [if_neg (by simp), if_pos hne, ha]
      dsimp only
      rw [if_pos hs, hv]
      dsimp only
      rw [if_neg (by omega)]
    exact ⟨hred, by rw [hred]; rfl, by rw [hred]; rfl⟩

/-- Witness for C5: with limit 1000, SIZE equal to 1001 is rejected with
552 and SIZE equal to 1000 is accepted. -/
theorem c5_size_limit_witness :
    readyHandler demoEnv demoS1 (chars ("MAIL"))
      (chars ("FROM:<a@ex> SIZE=1001")) =
      (demoS1, ["552 Max message size exceeded"]) ∧
    readyHandler demoEnv demoS1 (chars ("MAIL"))
      (chars ("FROM:<a@ex> SIZE=1000")) = acceptMail demoS1 (chars ("a@ex")) := by
  constructor
  · exact (c5_size_limit demoEnv demoS1 (chars ("FROM:<a@ex> SIZE=1001"))
      (chars ("a@ex")) (chars (" SIZE=1001"))
      [(chars ("SIZE"), chars ("1001"))] 1001
      (by decide) (by decide) (by decide) (by decide) (by decide)
      (by decide)).2.1 (by decide)
  · exact ((c5_size_limit demoEnv demoS1 (chars ("FROM:<a@ex> SIZE=1000"))
      (chars ("a@ex")) (chars (" SIZE=1000"))
      [(chars ("SIZE"), chars ("1000"))] 1000
      (by decide) (by decide) (by decide) (by decide) (by decide)
      (by decide)).2.2 (by decide)).1

/-- Unstuffing a stuffed line gives back the original line. -/
theorem unstuff_stuff (l : List Nat) : unstuffLine (stuffLine l) = l := by
  unfold stuffLine unstuffLine
  cases l with
  | nil => simp
  | cons b bs =>
    by_cases hb : b = 46 <;> simp [hb]

/-- A stuffed line is never one of the two terminator lines. -/
theorem stuffLine_ne_term (l : List Nat) :
    ¬(stuffLine l = dotCRLF ∨ stuffLine l = dotLF) := by
  unfold stuffLine dotCRLF dotLF
  rintro (hc | hc) <;> split at hc <;> simp_all

/-- The data reading loop, fed terminator-free lines whose unstuffed
bytes fit the limit and then a terminator, accumulates exactly the
unstuffed bytes and stops at the terminator. -/
theorem dataLoop_append_term (maxBytes : Nat) (t : List Nat)
    (rest : List (List Nat)) (ht : t = dotCRLF ∨ t = dotLF) :
    ∀ (pre : List (List Nat)) (buf : List Nat),
      (∀ l ∈ pre, ¬(l = dotCRLF ∨ l = dotLF)) →
      buf.length + ((pre.map unstuffLine).flatten).length ≤ maxBytes →
      dataLoop maxBytes buf (pre ++ t :: rest) =
        .done (buf ++ (pre.map unstuffLine).flatten) rest := by
  intro pre
  induction pre with
  | nil =>
    intro buf _ _
    simp [dataLoop, ht]
  | cons l pre ih =>
    intro buf hnt hsz
    simp only [List.map_cons, List.flatten_cons, List.length_append] at hsz
    simp only [List.cons_append, dataLoop, List.map_cons, List.flatten_cons]
    rw [if_neg (hnt l (by simp))]
    rw [if_neg (by simp only [List.length_append]; omega :
      ¬ maxBytes < (buf ++ unstuffLine l).length)]
    simp only [List.append_eq]
    rw [ih (buf ++ unstuffLine l) (fun x hx => hnt x (by simp [hx]))
      (by simp only [List.length_append]; omega)]
    rw [List.append_assoc]

/-- C3: a DATA body whose unstuffed size is exactly maxMessageBytes is
accepted (the loop reaches the terminator), and whenever the
accumulated buffer exceeds maxMessageBytes the handler replies 552,
resets, and leaves the session in READY. -/
theorem c3_size_boundary (env : Env) (ss : Session) :
    (∀ (pre : List (List Nat)) (t : List Nat) (rest : List (List Nat)),
      (t = dotCRLF ∨ t = dotLF) →
      (∀ l ∈ pre, ¬(l = dotCRLF ∨ l = dotLF)) →
      ((pre.map unstuffLine).flatten).length = env.maxMessageBytes →
      dataLoop env.maxMessageBytes [] (pre ++ t :: rest) =
        .done ((pre.map unstuffLine).flatten) rest) ∧
    (∀ lines, dataLoop env.maxMessageBytes [] lines = .exceeded →
      dataHandler env ss lines =
        ⟨reset ss, [msg354, "552 Maximum message size exceeded"], [], 0⟩ ∧
      (dataHandler env ss lines).session.state = .READY ∧
      (dataHandler env ss lines).session = reset ss) := by
  constructor
  · intro pre t rest ht hnt hsz
    have h := dataLoop_append_term env.maxMessageBytes t rest ht pre []
      hnt (by simp [hsz])
    simpa using h
  · intro lines hx
    have hd : dataHandler env ss lines =
        ⟨reset ss, [msg354, "552 Maximum message size exceeded"], [], 0⟩ := by
      unfold dataHandler
      rw [hx]
    exact ⟨hd, by rw [hd]; rfl, by rw [hd]⟩

/-- Witness for C3 with limit four: a four-byte body is accepted, a
five-byte body trips the 552 reply and the reset to READY. -/
theorem c3_size_boundary_witness :
    dataLoop tinyEnv.maxMessageBytes [] [[97, 98, 13, 10], dotCRLF] =
      .done [97, 98, 13, 10] [] ∧
    dataHandler tinyEnv demoS4 [[97, 98, 99, 13, 10], dotCRLF] =
      ⟨reset demoS4, [msg354, "552 Maximum message size exceeded"], [], 0⟩ := by
  constructor
  · have h := (c3_size_boundary tinyEnv demoS4).1 [[97, 98, 13, 10]] dotCRLF []
      (by decide) (by decide) (by decide)
    exact h.trans (by decide)
  · exact ((c3_size_boundary tinyEnv demoS4).2 [[97, 98, 99, 13, 10], dotCRLF]
      (by decide)).1

/-- C4: the data reader stops exactly on a terminator line, strips one
leading dot from every other dot-prefixed line, and therefore any
payload obtained by dot-stuffing a body reads back as exactly that
body. -/
theorem c4_dot_unstuffing (maxBytes : Nat) (B : List (List Nat))
    (t : List Nat) (ht : t = dotCRLF ∨ t = dotLF)
    (hsz : B.flatten.length ≤ maxBytes) :
    (∀ l, ¬(stuffLine l = dotCRLF ∨ stuffLine l = dotLF)) ∧
    (∀ bs : List Nat, unstuffLine (46 :: bs) = bs) ∧
    (∀ (buf : List Nat) (ls : List (List Nat)) (l : List Nat),
      (l = dotCRLF ∨ l = dotLF) →
      dataLoop maxBytes buf (l :: ls) = .done buf ls) ∧
    dataLoop maxBytes [] (B.map stuffLine ++ [t]) = .done B.flatten [] := by
  refine ⟨stuffLine_ne_term, ?_, ?_, ?_⟩
  · intro bs
    simp [unstuffLine]
  · intro buf ls l hl
    simp [dataLoop, hl]
  · have hmap : (B.map stuffLine).map unstuffLine = B := by
      rw [List.map_map]
      have : unstuffLine ∘ stuffLine = id := by
        funext x
        exact unstuff_stuff x
      rw [this, List.map_id]
    have h := dataLoop_append_term maxBytes t [] ht (B.map stuffLine) []
      (fun l hl => by
        rcases List.mem_map.mp hl with ⟨x, _, rfl⟩
        exact stuffLine_ne_term x)
      (by rw [hmap]; simpa using hsz)
    rw [hmap] at h
    simpa using h

/-- Witness for C4: a stuffed payload containing a dot-led body line
reads back as the original body. -/
theorem c4_dot_unstuffing_witness :
    dataLoop 100 []
      ([[104, 13, 10], [46, 13, 10]].map stuffLine ++ [dotCRLF]) =
      .done [104, 13, 10, 46, 13, 10] [] := by
  have h := (c4_dot_unstuffing 100 [[104, 13, 10], [46, 13, 10]] dotCRLF
    (by decide) (by decide)).2.2.2
  exact h.trans (by decide)

/-- Characterisation of the delivery loop: the Deliver calls are the
stored recipients up to and including the first failing one, and the
failing recipient is the head of the remainder. -/
theorem deliverLoop_spec (dErr : Recipient → Bool) (recips : List Recipient) :
    (deliverLoop dErr recips).1 =
      (recips.filter (fun r => r.shouldStore)).takeWhile (fun r => !dErr r) ++
      ((recips.filter (fun r => r.shouldStore)).dropWhile
        (fun r => !dErr r)).take 1 ∧
    (deliverLoop dErr recips).2.2 =
      ((recips.filter (fun r => r.shouldStore)).dropWhile
        (fun r => !dErr r)).head? := by
  induction recips with
  | nil => simp [deliverLoop]
  | cons r rs ih =>
    cases hs : r.shouldStore with
    | false => simp [deliverLoop, hs, ih.1, ih.2]
    | true =>
      cases he : dErr r with
      | true => simp [deliverLoop, hs, he]
      | false => simp [deliverLoop, hs, he, ih.1, ih.2]

/-- When no stored recipient fails, the delivery loop calls Deliver on
exactly the stored recipients and counts one increment per recipient. -/
theorem deliverLoop_ok (dErr : Recipient → Bool) (recips : List Recipient)
    (h : ∀ r ∈ recips, r.shouldStore = true → dErr r = false) :
    deliverLoop dErr recips =
      (recips.filter (fun r => r.shouldStore), recips.length, none) := by
  induction recips with
  | nil => simp [deliverLoop]
  | cons r rs ih =>
    have hrest := ih (fun x hx hsx => h x (by simp [hx]) hsx)
    cases hs : r.shouldStore with
    | false => simp [deliverLoop, hs, hrest]
    | true =>
      have he : dErr r = false := h r (by simp) hs
      simp [deliverLoop, hs, he, hrest]

/-- C8: after the terminator, Deliver is called exactly for the stored
recipients in RCPT order up to and including the first failure; a
failure replies 451 naming the local part and resets the session, and
no later recipient is delivered; success replies 250. -/
theorem c8_delivery_order (env : Env) (ss : Session)
    (lines : List (List Nat)) (body : List Nat) (rest : List (List Nat))
    (hrun : dataLoop env.maxMessageBytes [] lines = .done body rest) :
    (dataHandler env ss lines).delivers =
      (ss.recipients.filter (fun r => r.shouldStore)).takeWhile
        (fun r => !env.deliverErr r) ++
      ((ss.recipients.filter (fun r => r.shouldStore)).dropWhile
        (fun r => !env.deliverErr r)).take 1 ∧
    (∀ r ∈ (dataHandler env ss lines).delivers, r.shouldStore = true) ∧
    (((ss.recipients.filter (fun r => r.shouldStore)).dropWhile
        (fun r => !env.deliverErr r)) = [] →
      (dataHandler env ss lines).replies =
        [msg354, "250 Mail accepted for delivery"] ∧
      (dataHandler env ss lines).session = reset ss) ∧
    (∀ r rs2, ((ss.recipients.filter (fun r => r.shouldStore)).dropWhile
        (fun r => !env.deliverErr r)) = r :: rs2 →
      (dataHandler env ss lines).replies =
        [msg354, "451 Failed to store message for " ++ String.mk r.localPart] ∧
      (dataHandler env ss lines).session = reset ss ∧
      (dataHandler env ss lines).delivers =
        (ss.recipients.filter (fun r => r.shouldStore)).takeWhile
          (fun r => !env.deliverErr r) ++ [r]) := by
  have hspec := deliverLoop_spec env.deliverErr ss.recipients
  have hd : dataHandler env ss lines =
      let d := deliverLoop env.deliverErr ss.recipients
      match d.2.2 with
      | some r =>
        ⟨reset ss,
          [msg354, "451 Failed to store message for " ++ String.mk r.localPart],
          d.1, d.2.1⟩
      | none =>
        ⟨reset ss, [msg354, "250 Mail accepted for delivery"], d.1, d.2.1⟩ := by
    unfold dataHandler
    rw [hrun]
  refine ⟨?_, ?_, ?_, ?_⟩
  · rw [hd]
    dsimp only
    rcases hfail : (deliverLoop env.deliverErr ss.recipients).2.2 with _ | r
    · simp only [hfail]
      exact hspec.1
    · simp only [hfail]
      exact hspec.1
  · intro r hr
    rw [hd] at hr
    dsimp only at hr
    have hr2 : r ∈ (deliverLoop env.deliverErr ss.recipients).1 := by
      rcases hfail : (deliverLoop env.deliverErr ss.recipients).2.2 with _ | q <;>
        simp only [hfail] at hr <;> exact hr
    rw [hspec.1] at hr2
    rcases List.mem_append.mp hr2 with hm | hm
    · exact List.of_mem_filter ((List.takeWhile_sublist _).subset hm)
    · exact List.of_mem_filter
        (((List.dropWhile_sublist _).subset) (List.take_subset _ _ hm))
  · intro hempty
    have hfail : (deliverLoop env.deliverErr ss.recipients).2.2 = none := by
      rw [hspec.2, hempty]
      rfl
    rw [hd]
    dsimp only
    simp only [hfail]
    exact ⟨trivial, trivial⟩
  · intro r rs2 hcons
    have hfail : (deliverLoop env.deliverErr ss.recipients).2.2 = some r := by
      rw [hspec.2, hcons]
      rfl
    rw [hd]
    dsimp only
    simp only [hfail]
    refine ⟨trivial, trivial, ?_⟩
    rw [hspec.1, hcons]
    rfl

/-- Witness for C8: with a failing delivery oracle, a concrete session
delivers only its first stored recipient, replies 451 and resets. -/
theorem c8_delivery_order_witness :
    (dataHandler failEnv demoS4 [dotCRLF]).delivers = demoS4.recipients ∧
    (dataHandler failEnv demoS4 [dotCRLF]).replies =
      [msg354, "451 Failed to store message for b"] ∧
    (dataHandler failEnv demoS4 [dotCRLF]).session = reset demoS4 := by
  have h := c8_delivery_order failEnv demoS4 [dotCRLF] [] [] (by decide)
  refine ⟨h.1.trans (by decide), ?_, ?_⟩
  · have h4 := h.2.2.2 ⟨chars ("b@ex"), chars ("b"), true⟩ [] (by decide)
    exact h4.1.trans (by decide)
  · have h4 := h.2.2.2 ⟨chars ("b@ex"), chars ("b"), true⟩ [] (by decide)
    exact h4.2.1

/-- Counterexample to C9: a session whose single accepted recipient is
not stored completes the data phase successfully with zero Deliver
calls, yet the received-total counter is incremented once, not zero
times as once-per-delivered-recipient would require. -/
theorem c9_counter_counterexample :
    (dataHandler demoEnv unstoredSession [dotCRLF]).counterInc = 1 ∧
    unstoredSession.recipients.filter (fun r => r.shouldStore) = [] ∧
    (dataHandler demoEnv unstoredSession [dotCRLF]).delivers = [] ∧
    (dataHandler demoEnv unstoredSession [dotCRLF]).replies =
      [msg354, "250 Mail accepted for delivery"] ∧
    unstoredSession.recipients.length = 1 := by
  decide

/-- C9 as amended: on successful completion of the data phase the
received-total counter is incremented once per accepted recipient,
whether or not it was stored, so by the length of the recipients list;
the delivered recipients are still exactly the stored ones. -/
theorem c9_counter_per_recipient (env : Env) (ss : Session)
    (lines : List (List Nat)) (body : List Nat) (rest : List (List Nat))
    (hrun : dataLoop env.maxMessageBytes [] lines = .done body rest)
    (hok : ∀ r ∈ ss.recipients, r.shouldStore = true →
      env.deliverErr r = false) :
    (dataHandler env ss lines).counterInc = ss.recipients.length ∧
    (dataHandler env ss lines).delivers =
      ss.recipients.filter (fun r => r.shouldStore) := by
  have hloop := deliverLoop_ok env.deliverErr ss.recipients hok
  have hd : dataHandler env ss lines =
      ⟨reset ss, [msg354, "250 Mail accepted for delivery"],
        ss.recipients.filter (fun r => r.shouldStore),
        ss.recipients.length⟩ := by
    unfold dataHandler
    rw [hrun, hloop]
  rw [hd]
  exact ⟨rfl, rfl⟩

/-- Witness for the amended C9 at a concrete session with one stored
and one unstored recipient: two increments, one delivery. -/
theorem c9_counter_per_recipient_witness :
    (dataHandler demoEnv
      { unstoredSession with
          recipients := unstoredSession.recipients ++
            [⟨chars ("c@ex"), chars ("c"), true⟩] } [dotCRLF]).counterInc = 2 ∧
    (dataHandler demoEnv
      { unstoredSession with
          recipients := unstoredSession.recipients ++
            [⟨chars ("c@ex"), chars ("c"), true⟩] } [dotCRLF]).delivers =
      [⟨chars ("c@ex"), chars ("c"), true⟩] := by
  have h := c9_counter_per_recipient demoEnv
    { unstoredSession with
        recipients := unstoredSession.recipients ++
          [⟨chars ("c@ex"), chars ("c"), true⟩] } [dotCRLF] [] []
    (by decide) (by decide)
  exact ⟨h.1.trans (by decide), h.2.trans (by decide)⟩

/-- The greet handler preserves the session invariant from GREET. -/
theorem inv_greetHandler (env : Env) (ss : Session) (cmd arg : List Char)
    (h : ss.state = .GREET) : InvP (greetHandler env ss cmd arg).1 := by
  unfold greetHandler ooSeq
  repeat' split
  all_goals simp [InvP, h]

/-- The ready handler preserves the session invariant from READY: when
it enters MAIL it records the non-empty matched sender. -/
theorem inv_readyHandler (env : Env) (ss : Session) (cmd arg : List Char)
    (h : ss.state = .READY) : InvP (readyHandler env ss cmd arg).1 := by
  unfold readyHandler ooSeq acceptMail
  split
  · split
    next => simp [InvP, h]
    next f params hm =>
      have hf := matchMailFrom_some_ne arg f params hm
      repeat' split
      all_goals simp [InvP, h, hf]
  · simp [InvP, h]

/-- The mail handler preserves the session invariant from MAIL: DATA is
entered only with a recipient on file, and the sender survives. -/
theorem inv_mailHandler (env : Env) (ss : Session) (cmd arg : List Char)
    (h : ss.state = .MAIL) (hf : ss.fromAddr ≠ []) :
    InvP (mailHandler env ss cmd arg).1 := by
  unfold mailHandler ooSeq
  repeat' split
  all_goals simp_all [InvP, List.length_pos]

/-- The data handler always leaves the invariant intact: it ends in
READY through reset or in QUIT. -/
theorem inv_dataHandler (env : Env) (ss : Session) (lines : List (List Nat)) :
    InvP (dataHandler env ss lines).session := by
  unfold dataHandler
  split
  · simp [InvP]
  · simp [InvP, reset]
  · dsimp only
    cases (deliverLoop env.deliverErr ss.recipients).2.2 with
    | none => simp [InvP, reset]
    | some r => simp [InvP, reset]

/-- Dispatch of a parsed command preserves the session invariant. -/
theorem inv_handleParsed (env : Env) (ss : Session) (cmd arg : List Char)
    (hInv : InvP ss) : InvP (handleParsed env ss cmd arg).1 := by
  unfold handleParsed
  repeat' split
  all_goals
    first
      | exact hInv
      | (exact inv_greetHandler env ss cmd arg (by assumption))
      | (exact inv_readyHandler env ss cmd arg (by assumption))
      | (exact inv_mailHandler env ss cmd arg (by assumption)
          (hInv.1 (by assumption)))
      | (simp [InvP, reset]; done)

/-- One command-phase loop iteration preserves the session invariant. -/
theorem inv_handleCmd (env : Env) (ss : Session) (line : List Char)
    (hInv : InvP ss) : InvP (handleCmd env ss line).1 := by
  unfold handleCmd
  split
  split
  · exact inv_handleParsed env ss _ _ hInv
  · exact hInv

/-- Every reachable session satisfies the invariant. -/
theorem reach_inv (env : Env) (ss : Session) (h : Reach env ss) : InvP ss := by
  induction h with
  | init host => simp [InvP, initSession]
  | cmd ss2 line hr hd hq ih => exact inv_handleCmd env ss2 line ih
  | data ss2 lines hr hd ih => exact inv_dataHandler env ss2 lines

/-- C1: in every session reachable from the initial GREET state, being
in DATA implies at least one recipient and a non-empty sender; in
particular both hold at every entry into the data phase. -/
theorem c1_data_entry_invariant (env : Env) (ss : Session)
    (h : Reach env ss) (hd : ss.state = .DATA) :
    1 ≤ ss.recipients.length ∧ ss.fromAddr ≠ [] := by
  have hi := (reach_inv env ss h).2 hd
  exact ⟨List.length_pos.mpr hi.2, hi.1⟩

/-- Witness for C1: the session reached by HELO, MAIL, RCPT, DATA is in
DATA with one recipient and a non-empty sender. -/
theorem c1_data_entry_invariant_witness :
    demoS4.state = .DATA ∧
    1 ≤ demoS4.recipients.length ∧ demoS4.fromAddr ≠ [] := by
  have h0 : Reach demoEnv demoS0 := Reach.init (chars ("127.0.0.1"))
  have h1 : Reach demoEnv demoS1 :=
    Reach.cmd demoS0 (chars ("HELO client.example")) h0 (by decide) (by decide)
  have h2 : Reach demoEnv demoS2 :=
    Reach.cmd demoS1 (chars ("MAIL FROM:<a@ex>")) h1 (by decide) (by decide)
  have h3 : Reach demoEnv demoS3 :=
    Reach.cmd demoS2 (chars ("RCPT TO:<b@ex>")) h2 (by decide) (by decide)
  have h4 : Reach demoEnv demoS4 :=
    Reach.cmd demoS3 (chars ("DATA")) h3 (by decide) (by decide)
  exact ⟨by decide, c1_data_entry_invariant demoEnv demoS4 h4 (by decide)⟩
